import Mathlib

/-!
# Verification of `tensorrt_llm/executor/utils.py`

A shallow embedding of the coordination-layer utilities of the executor
module: the process-pool session backend, the in-process IPC queue, the
worker IPC address bundle, the response value types, and the session
selection function.  Each Python construct is translated directly from
the source; definitions whose doc comment starts with `Modelled from the
spec:` embed behaviour described only in the specification (their code
lives outside this file) and are used solely for refinement comparison.
-/

/-- Decidable equality for `Except`, used to evaluate the embedding on
concrete inputs. -/
instance {ε α : Type} [DecidableEq ε] [DecidableEq α] : DecidableEq (Except ε α) :=
  fun x y =>
    match x, y with
    | Except.ok a, Except.ok b =>
      if h : a = b then isTrue (by rw [h]) else isFalse (by intro hc; cases hc; exact h rfl)
    | Except.error e, Except.error f =>
      if h : e = f then isTrue (by rw [h]) else isFalse (by intro hc; cases hc; exact h rfl)
    | Except.ok _, Except.error _ => isFalse (by intro hc; cases hc)
    | Except.error _, Except.ok _ => isFalse (by intro hc; cases hc)

/-! ## Process-pool session backend (`ProcessPoolExecutorSession`) -/

/-- `ProcessPoolExecutorSession.__init__` stores `n_workers` and creates a
`ProcessPoolExecutor` with that many workers.  The pool itself is opaque;
the observable state is the worker count. -/
structure ProcessPoolExecutorSession where
  n_workers : Nat
deriving DecidableEq

/-- A future handle returned by `ProcessPoolExecutor.submit`: it records the
submitted task and the slot (loop index `i`) it was submitted under. -/
structure PoolFuture (τ : Type) where
  idx : Nat
  task : τ
deriving DecidableEq

/-- `submit`: `[self.mpi_pool.submit(task, *args) for i in range(self.n_workers)]`
— one future per worker, all carrying the same task. -/
def ProcessPoolExecutorSession.submit {τ : Type} (s : ProcessPoolExecutorSession)
    (task : τ) : List (PoolFuture τ) :=
  (List.range s.n_workers).map (fun i => PoolFuture.mk i task)

/-- The eventual outcome of `future.result()`: the pool execution `exec` maps a
slot index and its task either to a value (`ok`) or to a raised exception
(`error`, carrying the exception message). -/
def PoolFuture.result {τ α : Type} (exec : Nat → τ → Except String α)
    (f : PoolFuture τ) : Except String α :=
  exec f.idx f.task

/-- The list comprehension `[future.result() for future in futures]`: results
are collected left to right and the first raising future aborts the whole
comprehension with its exception. -/
def collectResults {α : Type} : List (Except String α) → Except String (List α)
  | [] => Except.ok []
  | Except.error e :: _ => Except.error e
  | Except.ok a :: rest => (collectResults rest).map (fun l => a :: l)

/-- How many futures the comprehension `[future.result() for future in futures]`
actually resolves (invokes `result()` on): every future up to and including
the first failing one, or all of them when none fails. -/
def resolvedCount {α : Type} : List (Except String α) → Nat
  | [] => 0
  | Except.error _ :: _ => 1
  | Except.ok _ :: rest => resolvedCount rest + 1

/-- Boolean test for a successfully completed future. -/
def isOkE {ε α : Type} : Except ε α → Bool
  | Except.ok _ => true
  | Except.error _ => false

/-- `submit_sync`: submits one future per worker exactly as `submit` does and
then runs `[future.result() for future in futures]`. -/
def ProcessPoolExecutorSession.submit_sync {τ α : Type}
    (s : ProcessPoolExecutorSession) (task : τ)
    (exec : Nat → τ → Except String α) : Except String (List α) :=
  collectResults ((s.submit task).map (PoolFuture.result exec))

/-- `shutdown` calls `mpi_pool.shutdown(wait=False)`; the session state it
leaves behind is unchanged (the worker count is still recorded). -/
def ProcessPoolExecutorSession.shutdown (s : ProcessPoolExecutorSession) :
    ProcessPoolExecutorSession :=
  s

/-! ## In-process IPC queue (`IntraProcessQueue`) -/

/-- `IntraProcessQueue.__init__` creates `queue.Queue()`, a thread-safe FIFO.
The front of the FIFO is the head of the list. -/
structure IntraProcessQueue (α : Type) where
  queue : List α
deriving DecidableEq

/-- Outcome of `Queue.get(timeout=...)` in a quiescent queue (no concurrent
producers): an item with the successor state, the `queue.Empty` exception
raised once the timeout elapses, or an indefinite block when the queue is
empty and no timeout was given (`Queue.get(block=True, timeout=None)`). -/
inductive GetResult (α : Type) where
  | item (a : α) (rest : IntraProcessQueue α)
  | empty
  | blocks
deriving DecidableEq

/-- `put(obj)`: `self.queue.put(obj)` appends at the back of the FIFO. -/
def IntraProcessQueue.put {α : Type} (q : IntraProcessQueue α) (obj : α) :
    IntraProcessQueue α :=
  IntraProcessQueue.mk (q.queue ++ [obj])

/-- `get(timeout=None)`: `self.queue.get(timeout=timeout)`.  Returns the front
item when one is present; on an empty queue it raises `queue.Empty` after the
timeout, or blocks indefinitely when `timeout` is `None`. -/
def IntraProcessQueue.get {α : Type} (q : IntraProcessQueue α)
    (timeout : Option Nat) : GetResult α :=
  match q.queue with
  | a :: rest => GetResult.item a (IntraProcessQueue.mk rest)
  | [] =>
    match timeout with
    | some _ => GetResult.empty
    | none => GetResult.blocks

/-- `close`: the body is `pass` — it does nothing to the queue. -/
def IntraProcessQueue.close {α : Type} (q : IntraProcessQueue α) :
    IntraProcessQueue α :=
  q

/-- Outcome of `poll`: a boolean together with the successor state, or an
indefinite block inherited from the inner `get`. -/
inductive PollResult (α : Type) where
  | res (b : Bool) (state : IntraProcessQueue α)
  | blocks
deriving DecidableEq

/-- `poll(timeout=None)`: `item = self.queue.get(timeout=timeout)`; on success
the item is put back with `self.queue.put(item)` (at the back of the FIFO) and
`True` is returned; a `queue.Empty` exception yields `False`. -/
def IntraProcessQueue.poll {α : Type} (q : IntraProcessQueue α)
    (timeout : Option Nat) : PollResult α :=
  match q.get timeout with
  | GetResult.item a rest => PollResult.res true (rest.put a)
  | GetResult.empty => PollResult.res false q
  | GetResult.blocks => PollResult.blocks

/-- Modelled from the spec: `poll(timeout)` reports whether an item is
available without consuming it and never blocks past its timeout; used only
as the reference side of refinement comparisons. -/
def specPoll {α : Type} (q : IntraProcessQueue α) (_timeout : Option Nat) :
    PollResult α :=
  PollResult.res (!q.queue.isEmpty) q

/-- One client operation on the in-process channel. -/
inductive QOp (α : Type) where
  | put (a : α)
  | get (timeout : Option Nat)
  | poll (timeout : Option Nat)
deriving DecidableEq

/-- The observation a client makes of one operation. -/
inductive Obs (α : Type) where
  | putOk
  | got (a : α)
  | emptyRaised
  | polled (b : Bool)
  | blocked
deriving DecidableEq

/-- Sequential execution of a list of operations against the source
`IntraProcessQueue`; a blocking operation ends the trace. -/
def runOps {α : Type} (q : IntraProcessQueue α) : List (QOp α) → List (Obs α)
  | [] => []
  | QOp.put a :: ops => Obs.putOk :: runOps (q.put a) ops
  | QOp.get t :: ops =>
    match q.get t with
    | GetResult.item a q' => Obs.got a :: runOps q' ops
    | GetResult.empty => Obs.emptyRaised :: runOps q ops
    | GetResult.blocks => [Obs.blocked]
  | QOp.poll t :: ops =>
    match q.poll t with
    | PollResult.res b q' => Obs.polled b :: runOps q' ops
    | PollResult.blocks => [Obs.blocked]

/-- Modelled from the spec: the same trace semantics with the spec's
non-destructive `poll`; `put` and `get` behave as in the source.  Under this
reference semantics every `get` returns the oldest unconsumed item. -/
def specRunOps {α : Type} (q : IntraProcessQueue α) : List (QOp α) → List (Obs α)
  | [] => []
  | QOp.put a :: ops => Obs.putOk :: specRunOps (q.put a) ops
  | QOp.get t :: ops =>
    match q.get t with
    | GetResult.item a q' => Obs.got a :: specRunOps q' ops
    | GetResult.empty => Obs.emptyRaised :: specRunOps q ops
    | GetResult.blocks => [Obs.blocked]
  | QOp.poll t :: ops =>
    match specPoll q t with
    | PollResult.res b q' => Obs.polled b :: specRunOps q' ops
    | PollResult.blocks => [Obs.blocked]

/-- Whether a trace contains a `poll` operation. -/
def hasPoll {α : Type} : List (QOp α) → Bool
  | [] => false
  | QOp.poll _ :: _ => true
  | _ :: ops => hasPoll ops

/-! ## Session selection (`create_mpi_comm_session`) -/

/-- The session value `create_mpi_comm_session` constructs: either a
`RemoteMpiCommSessionClient` bound to an IPC address, or an `MpiCommSession`
attached to a group of `n_workers` peers. -/
inductive SessionChoice where
  | remoteClient (addr : String)
  | commSession (n_workers : Nat)
deriving DecidableEq

/-- Python truthiness of the value of
`os.getenv("TLLM_SPAWN_PROXY_PROCESS_IPC_ADDR")`: `None` and the empty
string are falsy, any other string is truthy. -/
def envTruthy : Option String → Bool
  | none => false
  | some s => !(s == "")

/-- `create_mpi_comm_session(n_workers)`: when the
`TLLM_SPAWN_PROXY_PROCESS` flag is set it asserts that the proxy IPC address
is truthy (an `AssertionError` with the recorded message otherwise) and
returns a `RemoteMpiCommSessionClient` on that address; when the flag is
unset it returns `MpiCommSession(n_workers=n_workers)`. -/
def create_mpi_comm_session (spawnProxyEnv : Bool) (ipcAddrEnv : Option String)
    (n_workers : Nat) : Except String SessionChoice :=
  if spawnProxyEnv then
    if envTruthy ipcAddrEnv then
      Except.ok (SessionChoice.remoteClient (ipcAddrEnv.getD ""))
    else
      Except.error "TLLM_SPAWN_PROXY_PROCESS_IPC_ADDR is not set."
  else
    Except.ok (SessionChoice.commSession n_workers)

/-! ## Worker IPC address bundle (`WorkerCommIpcAddrs`) -/

/-- `class WorkerCommIpcAddrs(NamedTuple)`: five named channel address
strings.  The NamedTuple constructor is total — it stores the five strings
it is given, with no validation of any kind. -/
structure WorkerCommIpcAddrs where
  request_queue_addr : String
  request_error_queue_addr : String
  result_queue_addr : String
  stats_queue_addr : String
  kv_cache_events_queue_addr : String
deriving DecidableEq

/-- Modelled from the spec: a validating constructor that fails (returns
`none`) when any of the five addresses is the empty string; used only as the
reference side of the refinement comparison for address completeness. -/
def mkWorkerAddressSetSpec (a b c d e : String) : Option WorkerCommIpcAddrs :=
  if a ≠ "" ∧ b ≠ "" ∧ c ≠ "" ∧ d ≠ "" ∧ e ≠ "" then
    some (WorkerCommIpcAddrs.mk a b c d e)
  else
    none

/-! ## Python exception hierarchy and the response value types -/

/-- The fragment of the Python class hierarchy the file touches:
`class RequestError(RuntimeError)` is declared in the source, and the builtin
chain `RuntimeError <: Exception <: BaseException` comes with the language. -/
inductive PyClass where
  | BaseException
  | Exception
  | RuntimeError
  | RequestError
deriving DecidableEq

/-- The direct superclass of each class, read off the declarations above. -/
def superclass : PyClass → Option PyClass
  | PyClass.BaseException => none
  | PyClass.Exception => some PyClass.BaseException
  | PyClass.RuntimeError => some PyClass.Exception
  | PyClass.RequestError => some PyClass.RuntimeError

/-- Walk at most `fuel` steps up the superclass chain looking for `d`. -/
def isSubclassOfAux : Nat → PyClass → PyClass → Bool
  | 0, _, _ => false
  | fuel + 1, c, d =>
    c == d ||
      match superclass c with
      | none => false
      | some p => isSubclassOfAux fuel p d

/-- `issubclass(c, d)` on the four-class fragment (the chain has depth ≤ 4). -/
def isSubclassOf (c d : PyClass) : Bool :=
  isSubclassOfAux 4 c d

/-- A Python exception instance: its class and its message. -/
structure PyException where
  cls : PyClass
  msg : String
deriving DecidableEq

/-- An opaque in-memory tensor handle (`torch.Tensor`); the payload is never
inspected by this layer. -/
structure TorchTensor where
  id : Nat
deriving DecidableEq

/-- An opaque finish-reason enumerator from the executor bindings. -/
structure FinishReason where
  code : Nat
deriving DecidableEq

/-- An opaque disaggregated-serving parameter bundle, threaded through
unmodified. -/
structure DisaggParams where
  blob : Nat
deriving DecidableEq

/-- An opaque creation timestamp (the float value is only carried, never
interpreted, by this layer). -/
structure Timestamp where
  raw : Nat
deriving DecidableEq

/-- `class ExecutorResponseTensors(NamedTuple)`: per-step tensors; each logits
field is either an in-memory tensor or a string naming a shared-memory path. -/
structure ExecutorResponseTensors where
  output_token_ids : List (List Int)
  context_logits : Option (TorchTensor ⊕ String)
  generation_logits : Option (TorchTensor ⊕ String)
  log_probs : Option (List Int)
  cum_log_probs : Option (List Int)
deriving DecidableEq

/-- `class ErrorResponse(NamedTuple)`: a standalone per-request failure
record. -/
structure ErrorResponse where
  client_id : Int
  error_msg : String
  request_id : Int
deriving DecidableEq

/-- `class ExecutorResponse(NamedTuple)`: one message flowing from a worker to
the coordinator; `error` is either a plain string or an exception object. -/
structure ExecutorResponse where
  client_id : Int
  tensors : Option ExecutorResponseTensors
  finish_reasons : Option (List FinishReason)
  is_final : Option Bool
  sequence_index : Option Int
  error : Option (String ⊕ PyException)
  timestamp : Option Timestamp
  disaggregated_params : Option DisaggParams
deriving DecidableEq

/-- The two tiers of the error taxonomy documented at
`ExecutorResponse.error`. -/
inductive ErrorTier where
  | perRequest
  | serviceFatal
deriving DecidableEq

/-- Modelled from the spec: the str-versus-Exception dichotomy documented in
the comment on `ExecutorResponse.error` — a plain string is a per-request
error, an exception object is processed in the main thread and stops the
whole service (the dispatch code itself lives outside this file). -/
def classifyError : String ⊕ PyException → ErrorTier
  | Sum.inl _ => ErrorTier.perRequest
  | Sum.inr _ => ErrorTier.serviceFatal

/-! ## Mutability of the classes declared in the file -/

/-- How a Python instance stores its attributes: NamedTuple subclasses are
tuple-backed (immutable), ordinary classes carry a mutable `__dict__`. -/
inductive Backing where
  | tupleBacked
  | dictBacked
deriving DecidableEq

/-- Attribute assignment `obj.f = v` succeeds on dict-backed instances and
raises `AttributeError` on tuple-backed (NamedTuple) instances. -/
def setattrAllowed : Backing → Bool
  | Backing.tupleBacked => false
  | Backing.dictBacked => true

/-- The classes declared in the source file. -/
inductive SrcClass where
  | processPoolExecutorSession
  | executorResponseTensors
  | errorResponse
  | executorResponse
  | intraProcessQueue
  | workerCommIpcAddrs
deriving DecidableEq

/-- The backing of each declared class, read off its base-class list:
the four `NamedTuple` subclasses are tuple-backed, the two ordinary classes
are dict-backed. -/
def backingOf : SrcClass → Backing
  | SrcClass.processPoolExecutorSession => Backing.dictBacked
  | SrcClass.executorResponseTensors => Backing.tupleBacked
  | SrcClass.errorResponse => Backing.tupleBacked
  | SrcClass.executorResponse => Backing.tupleBacked
  | SrcClass.intraProcessQueue => Backing.dictBacked
  | SrcClass.workerCommIpcAddrs => Backing.tupleBacked

/-- Result of an attempted attribute assignment. -/
inductive SetFieldResult (β : Type) where
  | ok (new : β)
  | attributeError
deriving DecidableEq

/-- Attempt `w.request_queue_addr = v` on a `WorkerCommIpcAddrs` instance. -/
def trySetRequestQueueAddr (w : WorkerCommIpcAddrs) (v : String) :
    SetFieldResult WorkerCommIpcAddrs :=
  if setattrAllowed (backingOf SrcClass.workerCommIpcAddrs) then
    SetFieldResult.ok { w with request_queue_addr := v }
  else
    SetFieldResult.attributeError

/-- Attempt `r.error = v` on an `ExecutorResponse` instance. -/
def trySetError (r : ExecutorResponse) (v : Option (String ⊕ PyException)) :
    SetFieldResult ExecutorResponse :=
  if setattrAllowed (backingOf SrcClass.executorResponse) then
    SetFieldResult.ok { r with error := v }
  else
    SetFieldResult.attributeError

/-- Attempt `t.output_token_ids = v` on an `ExecutorResponseTensors`
instance. -/
def trySetOutputTokenIds (t : ExecutorResponseTensors) (v : List (List Int)) :
    SetFieldResult ExecutorResponseTensors :=
  if setattrAllowed (backingOf SrcClass.executorResponseTensors) then
    SetFieldResult.ok { t with output_token_ids := v }
  else
    SetFieldResult.attributeError

/-- Attempt `e.error_msg = v` on an `ErrorResponse` instance. -/
def trySetErrorMsg (e : ErrorResponse) (v : String) :
    SetFieldResult ErrorResponse :=
  if setattrAllowed (backingOf SrcClass.errorResponse) then
    SetFieldResult.ok { e with error_msg := v }
  else
    SetFieldResult.attributeError

/-! ## Concrete inputs used by witnesses and counterexamples -/

/-- A pool execution in which the worker in slot 1 raises and every other
worker returns its slot index. -/
def execWorker1Fails : Nat → Nat → Except String Nat :=
  fun i _ => if i == 1 then Except.error "boom" else Except.ok i

/-- A pool execution in which every worker succeeds, returning `10 + slot`. -/
def execAllOk : Nat → Nat → Except String Nat :=
  fun i _ => Except.ok (10 + i)

/-- A response whose `error` field holds a `RequestError` exception
instance. -/
def sampleRequestErrorResponse : ExecutorResponse :=
  ExecutorResponse.mk 7 none none (some true) none
    (some (Sum.inr (PyException.mk PyClass.RequestError "oops"))) none none

/-! ## Helper lemmas -/

/-- Collecting results of a run whose first failure follows only successful
futures reports exactly that first failure. -/
theorem collectResults_first_error {α : Type} (e : String)
    (post : List (Except String α)) :
    ∀ pre : List (Except String α), (∀ x ∈ pre, isOkE x = true) →
      collectResults (pre ++ Except.error e :: post) = Except.error e := by
  intro pre
  induction pre with
  | nil => intro _; rfl
  | cons x xs ih =>
    intro h
    have hx := h x (List.mem_cons_self x xs)
    have hxs : collectResults (xs ++ Except.error e :: post) = Except.error e :=
      ih (fun y hy => h y (List.mem_cons_of_mem x hy))
    cases x with
    | ok a => simp [collectResults, hxs, Except.map]
    | error e' => simp [isOkE] at hx

/-- The comprehension resolves every future up to and including the first
failing one, and no further. -/
theorem resolvedCount_first_error {α : Type} (e : String)
    (post : List (Except String α)) :
    ∀ pre : List (Except String α), (∀ x ∈ pre, isOkE x = true) →
      resolvedCount (pre ++ Except.error e :: post) = pre.length + 1 := by
  intro pre
  induction pre with
  | nil => intro _; rfl
  | cons x xs ih =>
    intro h
    have hx := h x (List.mem_cons_self x xs)
    have hxs := ih (fun y hy => h y (List.mem_cons_of_mem x hy))
    cases x with
    | ok a => simp [resolvedCount, hxs]
    | error e' => simp [isOkE] at hx

/-- Collecting results of all-successful futures yields the mapped values. -/
theorem collectResults_all_ok {α : Type} (v : Nat → α) :
    ∀ l : List Nat, collectResults (l.map (fun i => Except.ok (v i)))
      = Except.ok (l.map v) := by
  intro l
  induction l with
  | nil => rfl
  | cons x xs ih => simp [collectResults, ih, Except.map]

/-- Pointwise-equal functions map lists identically. -/
theorem map_congr_mem {β γ : Type} {f g : β → γ} :
    ∀ l : List β, (∀ a ∈ l, f a = g a) → l.map f = l.map g := by
  intro l
  induction l with
  | nil => intro _; rfl
  | cons x xs ih =>
    intro h
    simp only [List.map_cons, h x (List.mem_cons_self x xs),
      ih (fun a ha => h a (List.mem_cons_of_mem x ha))]

/-- `submit` always returns one future per worker. -/
theorem submit_length {τ : Type} (s : ProcessPoolExecutorSession) (task : τ) :
    (s.submit task).length = s.n_workers := by
  simp [ProcessPoolExecutorSession.submit]

/-! ## Claims about the process-pool backend -/

/-- Claim C1 as stated is false: with 3 workers and the worker in slot 1
raising, `submit_sync` resolves only the futures of workers 0 and 1 — the
comprehension `[future.result() for future in futures]` aborts at the first
raise and never resolves worker 2's future. -/
theorem submit_sync_drains_all_counterexample :
    ¬ (resolvedCount (((ProcessPoolExecutorSession.mk 3).submit 42).map
         (PoolFuture.result execWorker1Fails))
       = (ProcessPoolExecutorSession.mk 3).n_workers) := by decide

/-- Claim C1 (amended): when the futures of a `submit_sync` call split as a
prefix of successes followed by the first failure, the call reports that
first failure, resolves exactly the futures up to and including it (a count
never exceeding `n_workers`), and leaves every later future unresolved. -/
theorem submit_sync_first_failure {τ α : Type} (s : ProcessPoolExecutorSession)
    (task : τ) (exec : Nat → τ → Except String α)
    (pre post : List (Except String α)) (e : String)
    (hsplit : (s.submit task).map (PoolFuture.result exec)
      = pre ++ Except.error e :: post)
    (hpre : ∀ x ∈ pre, isOkE x = true) :
    s.submit_sync task exec = Except.error e ∧
    resolvedCount ((s.submit task).map (PoolFuture.result exec))
      = pre.length + 1 ∧
    pre.length + 1 ≤ s.n_workers := by
  refine ⟨?_, ?_, ?_⟩
  · rw [ProcessPoolExecutorSession.submit_sync, hsplit]
    exact collectResults_first_error e post pre hpre
  · rw [hsplit]
    exact resolvedCount_first_error e post pre hpre
  · have hlen := congrArg List.length hsplit
    rw [List.length_map, submit_length] at hlen
    rw [List.length_append, List.length_cons] at hlen
    omega

/-- Witness for the amended C1 at 3 workers with worker 1 failing. -/
theorem submit_sync_first_failure_witness :
    (ProcessPoolExecutorSession.mk 3).submit_sync 42 execWorker1Fails
      = Except.error "boom" ∧
    resolvedCount (((ProcessPoolExecutorSession.mk 3).submit 42).map
      (PoolFuture.result execWorker1Fails)) = 2 ∧
    2 ≤ (ProcessPoolExecutorSession.mk 3).n_workers := by
  have h := submit_sync_first_failure (ProcessPoolExecutorSession.mk 3) 42
    execWorker1Fails [Except.ok 0] [Except.ok 2] "boom" (by decide) (by decide)
  simpa using h

/-- Claim C6: `submit` returns exactly `n_workers` futures, each carrying the
same task, and when every worker succeeds `submit_sync` returns exactly
`n_workers` results in worker order. -/
theorem submit_broadcast {τ α : Type} (s : ProcessPoolExecutorSession)
    (task : τ) (exec : Nat → τ → Except String α) (v : Nat → α)
    (hok : ∀ i < s.n_workers, exec i task = Except.ok (v i)) :
    (s.submit task).length = s.n_workers ∧
    (∀ f ∈ s.submit task, f.task = task) ∧
    s.submit_sync task exec = Except.ok ((List.range s.n_workers).map v) := by
  refine ⟨submit_length s task, ?_, ?_⟩
  · intro f hf
    simp only [ProcessPoolExecutorSession.submit, List.mem_map] at hf
    obtain ⟨i, _, rfl⟩ := hf
    rfl
  · rw [ProcessPoolExecutorSession.submit_sync, ProcessPoolExecutorSession.submit,
      List.map_map]
    have hcongr : (List.range s.n_workers).map
        (PoolFuture.result exec ∘ fun i => PoolFuture.mk i task)
        = (List.range s.n_workers).map (fun i => Except.ok (v i)) := by
      apply map_congr_mem
      intro i hi
      have : i < s.n_workers := List.mem_range.mp hi
      simpa [PoolFuture.result] using hok i this
    rw [hcongr, collectResults_all_ok]

/-- Witness for C6 at 2 workers, all succeeding. -/
theorem submit_broadcast_witness :
    ((ProcessPoolExecutorSession.mk 2).submit 7).length = 2 ∧
    (ProcessPoolExecutorSession.mk 2).submit_sync 7 execAllOk
      = Except.ok [10, 11] := by
  obtain ⟨h1, _, h3⟩ := submit_broadcast (ProcessPoolExecutorSession.mk 2) 7
    execAllOk (fun i => 10 + i) (by decide)
  exact ⟨h1, h3.trans (by decide)⟩

/-! ## Claims about the in-process channel -/

/-- Claim C2 as stated is false: on the two-item queue `[0, 1]`, `poll` finds
an item and returns `True`, but the subsequent `get`s return `1` then `0` —
not the prior sequence `0` then `1` — because the polled item is re-inserted
at the back. -/
theorem poll_restores_counterexample :
    ¬ (runOps (IntraProcessQueue.mk ([0, 1] : List Nat))
         [QOp.poll (some 1), QOp.get (some 1), QOp.get (some 1)]
       = [Obs.polled true, Obs.got 0, Obs.got 1]) := by decide

/-- Claim C2 (amended): when `poll` finds an item it returns `True` and
re-inserts the consumed front item at the back, so the post-state is the
queue rotated by one — the same items as before (a permutation), but with
the polled item moved last rather than the prior state restored. -/
theorem poll_rotates {α : Type} (a : α) (rest : List α) (t : Option Nat) :
    IntraProcessQueue.poll (IntraProcessQueue.mk (a :: rest)) t
      = PollResult.res true (IntraProcessQueue.mk (rest ++ [a])) ∧
    (rest ++ [a]).Perm (a :: rest) :=
  ⟨rfl, List.perm_append_singleton a rest⟩

/-- Execution of put/get-only traces agrees with the reference FIFO
semantics (the two semantics differ only at `poll`). -/
theorem runOps_eq_spec_of_no_poll {α : Type} :
    ∀ (ops : List (QOp α)) (q : IntraProcessQueue α), hasPoll ops = false →
      runOps q ops = specRunOps q ops := by
  intro ops
  induction ops with
  | nil => intro q _; rfl
  | cons op ops ih =>
    intro q hnp
    cases op with
    | put a =>
      have hnp' : hasPoll ops = false := by simpa [hasPoll] using hnp
      simp [runOps, specRunOps, ih _ hnp']
    | get t' =>
      have hnp' : hasPoll ops = false := by simpa [hasPoll] using hnp
      cases h : q.get t' with
      | item a q' => simp [runOps, specRunOps, h, ih _ hnp']
      | empty => simp [runOps, specRunOps, h, ih _ hnp']
      | blocks => simp [runOps, specRunOps, h]
    | poll t' => simp [hasPoll] at hnp

/-- Claim C3 as stated is false: in the interleaving `put 0, put 1, poll,
get`, the `get` returns `1` although `0` is the oldest unconsumed item —
the source semantics and the reference FIFO semantics disagree. -/
theorem fifo_counterexample :
    ¬ (runOps (IntraProcessQueue.mk ([] : List Nat))
         [QOp.put 0, QOp.put 1, QOp.poll (some 1), QOp.get (some 1)]
       = specRunOps (IntraProcessQueue.mk ([] : List Nat))
         [QOp.put 0, QOp.put 1, QOp.poll (some 1), QOp.get (some 1)]) := by
  decide

/-- Claim C3 (amended): for every interleaving of `put` and `get` alone (no
`poll`), the channel behaves exactly as the reference FIFO — each `get`
returns the oldest unconsumed item — and `get` on an empty channel with a
timeout fails by raising `Empty` rather than returning a value. -/
theorem get_fifo_no_poll {α : Type} (q : IntraProcessQueue α)
    (ops : List (QOp α)) (hnp : hasPoll ops = false) (t : Nat) :
    runOps q ops = specRunOps q ops ∧
    IntraProcessQueue.get (IntraProcessQueue.mk ([] : List α)) (some t)
      = GetResult.empty :=
  ⟨runOps_eq_spec_of_no_poll ops q hnp, rfl⟩

/-- Witness for the amended C3 on the trace `put 5, get`. -/
theorem get_fifo_no_poll_witness :
    hasPoll [QOp.put (5 : Nat), QOp.get (some 1)] = false ∧
    runOps (IntraProcessQueue.mk ([] : List Nat))
        [QOp.put 5, QOp.get (some 1)]
      = specRunOps (IntraProcessQueue.mk ([] : List Nat))
        [QOp.put 5, QOp.get (some 1)] ∧
    IntraProcessQueue.get (IntraProcessQueue.mk ([] : List Nat)) (some 1)
      = GetResult.empty := by
  obtain ⟨h1, h2⟩ := get_fifo_no_poll (IntraProcessQueue.mk ([] : List Nat))
    [QOp.put 5, QOp.get (some 1)] (by decide) 1
  exact ⟨by decide, h1, h2⟩

/-- Claim C7: `poll` on an empty channel with no timeout blocks indefinitely
(the inner `self.queue.get(timeout=None)` is a blocking call), contradicting
the code's own comment that it tries to get an item "without blocking";
with a timeout it does return `False` within the timeout. -/
theorem poll_none_blocks :
    IntraProcessQueue.poll (IntraProcessQueue.mk ([] : List Nat)) none
      = PollResult.blocks ∧
    IntraProcessQueue.poll (IntraProcessQueue.mk ([] : List Nat)) (some 1)
      = PollResult.res false (IntraProcessQueue.mk []) := by decide

/-- Claim C8 as stated is false: after `close()` (whose body is `pass`), a
blocking `get` on the empty channel yields exactly the same `Empty` timeout
outcome as without the close — there is no distinguishable closed-channel
condition. -/
theorem close_counterexample :
    ¬ (IntraProcessQueue.get
         (IntraProcessQueue.close (IntraProcessQueue.mk ([] : List Nat)))
         (some 1)
       ≠ IntraProcessQueue.get (IntraProcessQueue.mk ([] : List Nat))
         (some 1)) := by decide

/-- Claim C8 (amended): `close()` is a no-op on the in-process channel — it
leaves the state unchanged (hence is trivially idempotent) and every
subsequent `get` behaves exactly as it would have before the close (timing
out with `Empty`, or blocking). -/
theorem close_noop {α : Type} (q : IntraProcessQueue α) (t : Option Nat) :
    q.close = q ∧ q.close.close = q.close ∧ q.close.get t = q.get t :=
  ⟨rfl, rfl, rfl⟩

/-! ## Claims about the address bundle and session selection -/

/-- Claim C4 as stated is false: constructing a `WorkerCommIpcAddrs` with all
five addresses empty succeeds (the NamedTuple constructor is total), whereas
the validating reference constructor rejects that input. -/
theorem worker_addrs_empty_counterexample :
    ¬ (some (WorkerCommIpcAddrs.mk "" "" "" "" "")
        = mkWorkerAddressSetSpec "" "" "" "" "") := by decide

/-- Claim C4 (amended): constructing a `WorkerCommIpcAddrs` never fails —
the NamedTuple performs no emptiness validation and simply stores whatever
five address strings it is given, empty or not. -/
theorem worker_addrs_no_validation (a b c d e : String) :
    (WorkerCommIpcAddrs.mk a b c d e).request_queue_addr = a ∧
    (WorkerCommIpcAddrs.mk a b c d e).request_error_queue_addr = b ∧
    (WorkerCommIpcAddrs.mk a b c d e).result_queue_addr = c ∧
    (WorkerCommIpcAddrs.mk a b c d e).stats_queue_addr = d ∧
    (WorkerCommIpcAddrs.mk a b c d e).kv_cache_events_queue_addr = e :=
  ⟨rfl, rfl, rfl, rfl, rfl⟩

/-- Claim C5: with the spawn-proxy flag set and no address, construction
fails with the recorded assertion message; with the flag set and a non-empty
address, a `RemoteMpiCommSessionClient` bound to that address is returned;
with the flag unset, an `MpiCommSession` with `n_workers` peers is
returned. -/
theorem session_selection (n : Nat) (a : String) (ha : a ≠ "") :
    create_mpi_comm_session true none n
      = Except.error "TLLM_SPAWN_PROXY_PROCESS_IPC_ADDR is not set." ∧
    create_mpi_comm_session true (some a) n
      = Except.ok (SessionChoice.remoteClient a) ∧
    (∀ addr, create_mpi_comm_session false addr n
      = Except.ok (SessionChoice.commSession n)) := by
  refine ⟨rfl, ?_, fun addr => rfl⟩
  simp [create_mpi_comm_session, envTruthy, ha]

/-- Witness for C5 at `n_workers = 2` and address `"ipc:1"`. -/
theorem session_selection_witness :
    ("ipc:1" ≠ "") ∧
    create_mpi_comm_session true none 2
      = Except.error "TLLM_SPAWN_PROXY_PROCESS_IPC_ADDR is not set." ∧
    create_mpi_comm_session true (some "ipc:1") 2
      = Except.ok (SessionChoice.remoteClient "ipc:1") ∧
    create_mpi_comm_session false none 2
      = Except.ok (SessionChoice.commSession 2) := by
  obtain ⟨h1, h2, h3⟩ := session_selection 2 "ipc:1" (by decide)
  exact ⟨by decide, h1, h2, h3 none⟩

/-! ## Claims about the value types and the error taxonomy -/

/-- Claim C9: the four NamedTuple value types declared in the file
(`WorkerCommIpcAddrs`, `ExecutorResponse`, `ExecutorResponseTensors`,
`ErrorResponse`) are tuple-backed, so attribute assignment on any of their
instances raises `AttributeError` and leaves the value unchanged — no
operation of the program can alter a field after construction. -/
theorem namedtuple_immutable :
    setattrAllowed (backingOf SrcClass.workerCommIpcAddrs) = false ∧
    setattrAllowed (backingOf SrcClass.executorResponse) = false ∧
    setattrAllowed (backingOf SrcClass.executorResponseTensors) = false ∧
    setattrAllowed (backingOf SrcClass.errorResponse) = false ∧
    (∀ (w : WorkerCommIpcAddrs) (v : String),
      trySetRequestQueueAddr w v = SetFieldResult.attributeError) ∧
    (∀ (r : ExecutorResponse) (v : Option (String ⊕ PyException)),
      trySetError r v = SetFieldResult.attributeError) ∧
    (∀ (tns : ExecutorResponseTensors) (v : List (List Int)),
      trySetOutputTokenIds tns v = SetFieldResult.attributeError) ∧
    (∀ (e : ErrorResponse) (v : String),
      trySetErrorMsg e v = SetFieldResult.attributeError) :=
  ⟨rfl, rfl, rfl, rfl, fun _ _ => rfl, fun _ _ => rfl, fun _ _ => rfl,
    fun _ _ => rfl⟩

/-- Claim C10: `RequestError` subclasses `RuntimeError` and hence
`Exception`, so a `RequestError` instance stored in a response's `error`
field is never in the plain-string branch and classifies into the
service-fatal (structured-exception) tier of the documented dichotomy. -/
theorem requestError_is_fatal_tier (r : ExecutorResponse) (exc : PyException)
    (herr : r.error = some (Sum.inr exc))
    (hcls : exc.cls = PyClass.RequestError) :
    isSubclassOf PyClass.RequestError PyClass.RuntimeError = true ∧
    isSubclassOf exc.cls PyClass.Exception = true ∧
    (∀ s : String, r.error ≠ some (Sum.inl s)) ∧
    classifyError (Sum.inr exc) = ErrorTier.serviceFatal := by
  refine ⟨by decide, ?_, ?_, rfl⟩
  · rw [hcls]; decide
  · intro s hs
    rw [herr] at hs
    exact Sum.noConfusion (Option.some.inj hs)

/-- Witness for C10 on a concrete response carrying a `RequestError`. -/
theorem requestError_is_fatal_tier_witness :
    isSubclassOf PyClass.RequestError PyClass.RuntimeError = true ∧
    sampleRequestErrorResponse.error ≠ some (Sum.inl "oops") ∧
    classifyError (Sum.inr (PyException.mk PyClass.RequestError "oops"))
      = ErrorTier.serviceFatal := by
  obtain ⟨h1, _, h3, h4⟩ := requestError_is_fatal_tier
    sampleRequestErrorResponse (PyException.mk PyClass.RequestError "oops")
    rfl rfl
  exact ⟨h1, h3 "oops", h4⟩
